import Mathlib

/-
Verification of the interview-session lifecycle and live feedback channel.

The definitions below are a shallow embedding of:
  - src/interviews/interview.schema.ts        (enums, Interview record)
  - src/interviews/interview.repository.ts    (createSession, findById, updateStatus)
  - src/interviews/interview.service.ts       (updateInterviewStatus, validateStateTransition)
  - src/interviews/interview.gateway.ts       (handleStartInterviewSession,
                                               startMockFeedbackEmission,
                                               generateMockFeedback, cleanupClientSession)

Conventions: wall-clock times are Nat (the code uses Date values only as opaque
timestamps); the Mongo document store is an association list keyed by id, with
findByIdAndUpdate's form of top-level field replacement modelled by applySet;
exceptions are modelled by Except / explicit error results returned alongside
the unchanged store.
-/

namespace Trainer

/-- InterviewStatus enum from interview.schema.ts. -/
inductive InterviewStatus
  | CREATED
  | IN_PROGRESS
  | COMPLETED
deriving DecidableEq, Repr

/-- InterviewDifficulty enum from interview.schema.ts. -/
inductive InterviewDifficulty
  | EASY
  | MEDIUM
  | HIGH
deriving DecidableEq, Repr

/-- InterviewDuration enum from interview.schema.ts. -/
inductive InterviewDuration
  | FIFTEEN_MIN
  | THIRTY_MIN
  | SIXTY_MIN
deriving DecidableEq, Repr

/-- Interview document (interview.schema.ts): startedAt and completedAt are
nullable Date fields, modelled as Option Nat. -/
structure Interview where
  userId : String
  domain : String
  difficulty : InterviewDifficulty
  duration : InterviewDuration
  status : InterviewStatus
  startedAt : Option Nat
  completedAt : Option Nat
deriving DecidableEq, Repr

/-- CreateInterviewDto from dto/create-interview.dto.ts. -/
structure CreateInterviewDto where
  userId : String
  domain : String
  difficulty : InterviewDifficulty
  duration : InterviewDuration
deriving DecidableEq, Repr

/-- The persisted collection of interview documents, keyed by document id. -/
abbrev Store := List (String × Interview)

/-- Document constructed by InterviewRepository.createSession: the dto fields
plus status CREATED and both timestamps null. -/
def createSessionRecord (dto : CreateInterviewDto) : Interview :=
  { userId := dto.userId
    domain := dto.domain
    difficulty := dto.difficulty
    duration := dto.duration
    status := InterviewStatus.CREATED
    startedAt := none
    completedAt := none }

/-- InterviewRepository.createSession: builds the document and saves it under a
fresh id, returning the saved document and the new store. -/
def createSession (id : String) (dto : CreateInterviewDto) (store : Store) :
    Interview × Store :=
  (createSessionRecord dto, (id, createSessionRecord dto) :: store)

/-- InterviewRepository.findById. -/
def findById (id : String) : Store → Option Interview
  | [] => none
  | (k, v) :: rest => if k = id then some v else findById id rest

/-- Timestamp patch passed by the service to InterviewRepository.updateStatus;
a field is included in the Mongo update exactly when it is present here (a JS
Date object is always truthy). -/
structure TimestampPatch where
  startedAt : Option Nat
  completedAt : Option Nat
deriving DecidableEq, Repr

/-- Effect of the repository's findByIdAndUpdate call on one document: $set of
status, plus startedAt / completedAt when present in the patch. -/
def applySet (status : InterviewStatus) (ts : TimestampPatch) (r : Interview) :
    Interview :=
  { r with
      status := status
      startedAt := match ts.startedAt with
        | some t => some t
        | none => r.startedAt
      completedAt := match ts.completedAt with
        | some t => some t
        | none => r.completedAt }

/-- InterviewRepository.updateStatus: findByIdAndUpdate with new true — updates
the document with the given id (ids are unique) and returns the updated
document, or none (and the unchanged store) when the id is absent. -/
def updateStatus (id : String) (status : InterviewStatus) (ts : TimestampPatch) :
    Store → Option Interview × Store
  | [] => (none, [])
  | (k, v) :: rest =>
    if k = id then
      (some (applySet status ts v), (k, applySet status ts v) :: rest)
    else
      let p := updateStatus id status ts rest
      (p.1, (k, v) :: p.2)

/-- Transition table defined inside InterviewService.validateStateTransition. -/
def allowedTransitions : InterviewStatus → List InterviewStatus
  | InterviewStatus.CREATED => [InterviewStatus.IN_PROGRESS]
  | InterviewStatus.IN_PROGRESS => [InterviewStatus.COMPLETED]
  | InterviewStatus.COMPLETED => []

/-- Errors thrown by InterviewService.updateInterviewStatus: NotFoundException,
and BadRequestException whose message is built from the current status and the
list of valid next states (carried here structurally). -/
inductive TransitionError
  | notFound (id : String)
  | invalidTransition (current : InterviewStatus) (allowed : List InterviewStatus)
deriving DecidableEq, Repr

/-- InterviewService.validateStateTransition: same status is allowed (returns
without throwing); otherwise the requested status must be in the transition
table for the current status. -/
def validateStateTransition (current next : InterviewStatus) :
    Option TransitionError :=
  if current = next then none
  else if next ∈ allowedTransitions current then none
  else some (TransitionError.invalidTransition current (allowedTransitions current))

/-- Timestamp patch built by updateInterviewStatus: startedAt is set to now when
the requested status is IN_PROGRESS, completedAt when it is COMPLETED. -/
def transitionTimestamps (newStatus : InterviewStatus) (now : Nat) :
    TimestampPatch :=
  { startedAt := if newStatus = InterviewStatus.IN_PROGRESS then some now else none
    completedAt := if newStatus = InterviewStatus.COMPLETED then some now else none }

/-- InterviewService.updateInterviewStatus: find the document, validate the
transition, build the timestamp patch, and persist via updateStatus. The store
is returned unchanged on every error path that throws before the repository
write. -/
def updateInterviewStatus (id : String) (newStatus : InterviewStatus) (now : Nat)
    (store : Store) : Except TransitionError Interview × Store :=
  match findById id store with
  | none => (Except.error (TransitionError.notFound id), store)
  | some interview =>
    match validateStateTransition interview.status newStatus with
    | some e => (Except.error e, store)
    | none =>
      let p := updateStatus id newStatus (transitionTimestamps newStatus now) store
      match p.1 with
      | none => (Except.error (TransitionError.notFound id), p.2)
      | some updated => (Except.ok updated, p.2)

/-- FeedbackType enum from dto/feedback-event.dto.ts. -/
inductive FeedbackType
  | PACE
  | FILLER
  | CONFIDENCE
  | RELEVANCE
deriving DecidableEq, Repr

/-- FeedbackSeverity enum from dto/feedback-event.dto.ts. -/
inductive FeedbackSeverity
  | LOW
  | MEDIUM
  | HIGH
deriving DecidableEq, Repr

/-- FeedbackEventDto from dto/feedback-event.dto.ts; the timestamp string is
modelled as the emission time. -/
structure FeedbackEventDto where
  type : FeedbackType
  message : String
  severity : FeedbackSeverity
  timestamp : Nat
deriving DecidableEq, Repr

/-- Ordered feedbackTypes list from InterviewGateway.generateMockFeedback. -/
def feedbackTypes : List FeedbackType :=
  [FeedbackType.PACE, FeedbackType.FILLER, FeedbackType.CONFIDENCE,
   FeedbackType.RELEVANCE]

/-- Ordered severities list from InterviewGateway.generateMockFeedback. -/
def severities : List FeedbackSeverity :=
  [FeedbackSeverity.LOW, FeedbackSeverity.MEDIUM, FeedbackSeverity.HIGH]

/-- Fixed messages lookup table from InterviewGateway.generateMockFeedback,
indexed by feedback type and then by severity index. -/
def messagesFor : FeedbackType → List String
  | FeedbackType.PACE =>
    ["Speaking pace is good",
     "Try to slow down a bit",
     "Pace is too fast, take your time"]
  | FeedbackType.FILLER =>
    ["Minimal filler words detected",
     "Moderate use of filler words like \"um\" and \"uh\"",
     "High frequency of filler words - practice pausing instead"]
  | FeedbackType.CONFIDENCE =>
    ["Confident tone and delivery",
     "Moderate confidence level",
     "Try to speak with more confidence"]
  | FeedbackType.RELEVANCE =>
    ["Answer is highly relevant",
     "Answer is somewhat relevant but could be more focused",
     "Answer is straying from the question"]

/-- InterviewGateway.generateMockFeedback: indexes feedbackTypes by
count mod length, severities by count mod length, recovers the severity index
with indexOf, and looks the message up in the fixed table. List indexing in the
source is always in bounds; getD defaults mirror it harmlessly. -/
def generateMockFeedback (count : Nat) (now : Nat) : FeedbackEventDto :=
  let type := feedbackTypes.getD (count % feedbackTypes.length) FeedbackType.PACE
  let severity :=
    severities.getD (count % severities.length) FeedbackSeverity.LOW
  let severityIndex := severities.indexOf severity
  let message := (messagesFor type).getD severityIndex ""
  { type := type, message := message, severity := severity, timestamp := now }

/-- ActiveSession entry of the gateway's activeSessions map; feedbackTimer is
the NodeJS.Timeout handle, modelled as a Nat drawn from a fresh counter. -/
structure ActiveSession where
  sessionId : String
  clientId : String
  feedbackTimer : Nat
  startTime : Nat
deriving DecidableEq, Repr

/-- State of one armed setInterval timer: its handle and the closure state of
the emission callback (client, sessionId, mutable feedbackCount). -/
structure IntervalTimer where
  handle : Nat
  clientId : String
  sessionId : String
  feedbackCount : Nat
deriving DecidableEq, Repr

/-- One feedback event as transmitted: the receiving client, the sessionId the
emitting loop is bound to, and the event payload. -/
structure EmittedEvent where
  clientId : String
  sessionId : String
  event : FeedbackEventDto
deriving DecidableEq, Repr

/-- Whole-gateway state: the activeSessions map, the set of armed interval
timers, a fresh-handle counter, and the trace of transmitted feedback
events. -/
structure GatewayState where
  activeSessions : List (String × ActiveSession)
  timers : List IntervalTimer
  nextTimer : Nat
  emitted : List EmittedEvent
deriving DecidableEq, Repr

/-- Gateway state at module load: empty map, no timers, nothing emitted. -/
def initialGateway : GatewayState :=
  { activeSessions := [], timers := [], nextTimer := 0, emitted := [] }

/-- Lookup in a string-keyed association list (JS Map.get). -/
def lookupKey {β : Type} (k : String) : List (String × β) → Option β
  | [] => none
  | (k', v) :: rest => if k' = k then some v else lookupKey k rest

/-- Removal of a key from a string-keyed association list (JS Map.delete). -/
def eraseKey {β : Type} (k : String) : List (String × β) → List (String × β)
  | [] => []
  | (k', v) :: rest =>
    if k' = k then eraseKey k rest else (k', v) :: eraseKey k rest

/-- Insertion into a string-keyed association list (JS Map.set; keys are
unique). -/
def setKey {β : Type} (k : String) (v : β) (l : List (String × β)) :
    List (String × β) :=
  (k, v) :: eraseKey k l

/-- Lookup of an armed timer by handle. -/
def findTimer (h : Nat) : List IntervalTimer → Option IntervalTimer
  | [] => none
  | t :: rest => if t.handle = h then some t else findTimer h rest

/-- clearInterval: the timer with this handle is disarmed and never fires
again. -/
def clearInterval (h : Nat) (l : List IntervalTimer) : List IntervalTimer :=
  l.filter (fun t => !(t.handle == h))

/-- Update of the stored closure counter of the timer with the given handle
(the source mutates the feedbackCount closure variable). -/
def setTimerCount (h : Nat) (c : Nat) (l : List IntervalTimer) :
    List IntervalTimer :=
  l.map (fun t => if t.handle = h then { t with feedbackCount := c } else t)

/-- InterviewGateway.cleanupClientSession: when an active session exists for the
client, clear its feedback timer and delete the map entry; otherwise do
nothing. -/
def cleanupClientSession (clientId : String) (st : GatewayState) : GatewayState :=
  match lookupKey clientId st.activeSessions with
  | none => st
  | some session =>
    { st with
        timers := clearInterval session.feedbackTimer st.timers
        activeSessions := eraseKey clientId st.activeSessions }

/-- InterviewGateway.handleStartInterviewSession: clean up any existing session
for this client, arm the recurring mock-feedback timer (fresh handle, closure
counter 0), and store the new ActiveSession keyed by the client id. -/
def handleStartInterviewSession (clientId sessionId : String) (now : Nat)
    (st : GatewayState) : GatewayState :=
  let st1 := cleanupClientSession clientId st
  let h := st1.nextTimer
  { st1 with
      timers :=
        { handle := h, clientId := clientId, sessionId := sessionId,
          feedbackCount := 0 } :: st1.timers
      nextTimer := h + 1
      activeSessions :=
        setKey clientId
          { sessionId := sessionId, clientId := clientId, feedbackTimer := h,
            startTime := now } st1.activeSessions }

/-- One firing of the setInterval callback armed by startMockFeedbackEmission:
a disarmed timer never fires; an armed one increments its counter, generates
the mock feedback for the new counter value, emits it to its client, and — when
the counter has reached 10 — tears the client session down as its last
action. -/
def tick (h : Nat) (now : Nat) (st : GatewayState) : GatewayState :=
  match findTimer h st.timers with
  | none => st
  | some t =>
    let count := t.feedbackCount + 1
    let fb := generateMockFeedback count now
    let st1 :=
      { st with
          timers := setTimerCount h count st.timers
          emitted :=
            st.emitted ++
              [{ clientId := t.clientId, sessionId := t.sessionId, event := fb }] }
    if 10 ≤ count then cleanupClientSession t.clientId st1 else st1

/-- InterviewGateway.handleDisconnect: clean up the client's active session. -/
def handleDisconnect (clientId : String) (st : GatewayState) : GatewayState :=
  cleanupClientSession clientId st

/-- Events the runtime can deliver to the gateway. -/
inductive GatewayOp
  | start (clientId sessionId : String) (now : Nat)
  | disconnect (clientId : String)
  | timerFire (h : Nat) (now : Nat)
deriving DecidableEq, Repr

/-- Dispatch of one runtime event to its handler. -/
def applyOp (op : GatewayOp) (st : GatewayState) : GatewayState :=
  match op with
  | GatewayOp.start c s now => handleStartInterviewSession c s now st
  | GatewayOp.disconnect c => handleDisconnect c st
  | GatewayOp.timerFire h now => tick h now st

/-- Sequential (single-threaded, cooperative) execution of runtime events. -/
def runOps (ops : List GatewayOp) (st : GatewayState) : GatewayState :=
  ops.foldl (fun s op => applyOp op s) st

/-- Repeated firings of the timer with handle h at the given sequence of
times. -/
def runTicks (h : Nat) (times : List Nat) (st : GatewayState) : GatewayState :=
  times.foldl (fun s now => tick h now s) st

/-! Helper lemmas about the repository embedding. -/

theorem updateStatus_fst (id : String) (s : InterviewStatus) (ts : TimestampPatch)
    (store : Store) :
    (updateStatus id s ts store).1 = (findById id store).map (applySet s ts) := by
  induction store with
  | nil => rfl
  | cons p rest ih =>
    obtain ⟨k, v⟩ := p
    by_cases hk : k = id
    · simp [updateStatus, findById, hk]
    · simp [updateStatus, findById, hk, ih]

theorem findById_updateStatus (i id : String) (s : InterviewStatus)
    (ts : TimestampPatch) (store : Store) :
    findById i (updateStatus id s ts store).2 =
      if i = id then (findById i store).map (applySet s ts)
      else findById i store := by
  induction store with
  | nil => by_cases h : i = id <;> simp [updateStatus, findById, h]
  | cons p rest ih =>
    obtain ⟨k, v⟩ := p
    by_cases hk : k = id <;> by_cases hki : k = i
    · subst hk; subst hki
      simp [updateStatus, findById]
    · subst hk
      have hik : ¬ i = k := fun h => hki h.symm
      simp [updateStatus, findById, hki, hik]
    · subst hki
      simp [updateStatus, findById, hk]
    · simp [updateStatus, findById, hk, hki, ih]

theorem validate_none (a b : InterviewStatus)
    (h : validateStateTransition a b = none) :
    a = b ∨ b ∈ allowedTransitions a := by
  by_cases h1 : a = b
  · exact Or.inl h1
  · by_cases h2 : b ∈ allowedTransitions a
    · exact Or.inr h2
    · simp [validateStateTransition, h1, h2] at h

theorem validate_same (a : InterviewStatus) : validateStateTransition a a = none := by
  simp [validateStateTransition]

theorem updateInterviewStatus_snd (id : String) (ns : InterviewStatus) (now : Nat)
    (store : Store) :
    (updateInterviewStatus id ns now store).2 =
      (match findById id store with
       | none => store
       | some r =>
         match validateStateTransition r.status ns with
         | some _ => store
         | none => (updateStatus id ns (transitionTimestamps ns now) store).2) := by
  unfold updateInterviewStatus
  cases hf : findById id store with
  | none => simp
  | some r =>
    cases hv : validateStateTransition r.status ns with
    | some e => simp [hv]
    | none =>
      cases hp : (updateStatus id ns (transitionTimestamps ns now) store).1 <;>
        simp [hv, hp]

theorem updateInterviewStatus_fst_eq (id : String) (ns : InterviewStatus)
    (now : Nat) (store : Store) :
    (updateInterviewStatus id ns now store).1 =
      (match findById id store with
       | none => Except.error (TransitionError.notFound id)
       | some r =>
         match validateStateTransition r.status ns with
         | some e => Except.error e
         | none => Except.ok (applySet ns (transitionTimestamps ns now) r)) := by
  unfold updateInterviewStatus
  cases hf : findById id store with
  | none => simp
  | some r =>
    cases hv : validateStateTransition r.status ns with
    | some e => simp [hv]
    | none =>
      have hfst := updateStatus_fst id ns (transitionTimestamps ns now) store
      rw [hf] at hfst
      simp [hv, hfst]

theorem updateInterviewStatus_ok (id : String) (ns : InterviewStatus) (now : Nat)
    (store : Store) (r' : Interview)
    (h : (updateInterviewStatus id ns now store).1 = Except.ok r') :
    ∃ r, findById id store = some r ∧ validateStateTransition r.status ns = none ∧
      r' = applySet ns (transitionTimestamps ns now) r ∧
      (updateInterviewStatus id ns now store).2 =
        (updateStatus id ns (transitionTimestamps ns now) store).2 := by
  rw [updateInterviewStatus_fst_eq] at h
  cases hf : findById id store with
  | none => rw [hf] at h; simp at h
  | some r =>
    rw [hf] at h
    cases hv : validateStateTransition r.status ns with
    | some e => simp [hv] at h
    | none =>
      simp only [hv, Except.ok.injEq] at h
      refine ⟨r, rfl, hv, h.symm, ?_⟩
      rw [updateInterviewStatus_snd, hf]
      simp [hv]

/-- Claim C1, counterexample: a session already IN_PROGRESS with startedAt 5;
requesting IN_PROGRESS again at time 7 changes the stored record (a persistence
write occurs and startedAt is refreshed), and a second identical call at time 9
returns a different record than the first call (timestamp drift). -/
theorem c1_idempotent_noop_counterexample :
    (updateInterviewStatus "s1" InterviewStatus.IN_PROGRESS 7
        [("s1",
          { userId := "u1", domain := "d", difficulty := InterviewDifficulty.EASY,
            duration := InterviewDuration.FIFTEEN_MIN,
            status := InterviewStatus.IN_PROGRESS, startedAt := some 5,
            completedAt := none })]).2 ≠
      [("s1",
        { userId := "u1", domain := "d", difficulty := InterviewDifficulty.EASY,
          duration := InterviewDuration.FIFTEEN_MIN,
          status := InterviewStatus.IN_PROGRESS, startedAt := some 5,
          completedAt := none })] ∧
    (updateInterviewStatus "s1" InterviewStatus.IN_PROGRESS 7
        [("s1",
          { userId := "u1", domain := "d", difficulty := InterviewDifficulty.EASY,
            duration := InterviewDuration.FIFTEEN_MIN,
            status := InterviewStatus.IN_PROGRESS, startedAt := some 5,
            completedAt := none })]).1.toOption ≠
      (updateInterviewStatus "s1" InterviewStatus.IN_PROGRESS 9
        (updateInterviewStatus "s1" InterviewStatus.IN_PROGRESS 7
          [("s1",
            { userId := "u1", domain := "d", difficulty := InterviewDifficulty.EASY,
              duration := InterviewDuration.FIFTEEN_MIN,
              status := InterviewStatus.IN_PROGRESS, startedAt := some 5,
              completedAt := none })]).2).1.toOption := by
  constructor
  · decide
  · decide

/-- Claim C1 as amended: a same-status request succeeds and leaves the status
unchanged, but it is not a no-op — the repository write still happens: the
stored record becomes the returned record, whose startedAt is refreshed to the
current time when the status is IN_PROGRESS and whose completedAt is refreshed
when it is COMPLETED; only for status CREATED is the record's content
unchanged. -/
theorem c1_same_status_call_behavior (id : String) (store : Store) (r : Interview)
    (now : Nat) (h : findById id store = some r) :
    ∃ r', (updateInterviewStatus id r.status now store).1 = Except.ok r' ∧
      findById id (updateInterviewStatus id r.status now store).2 = some r' ∧
      r'.status = r.status ∧
      r'.startedAt =
        (if r.status = InterviewStatus.IN_PROGRESS then some now else r.startedAt) ∧
      r'.completedAt =
        (if r.status = InterviewStatus.COMPLETED then some now else r.completedAt) ∧
      (r.status = InterviewStatus.CREATED → r' = r) := by
  have hfst := updateInterviewStatus_fst_eq id r.status now store
  rw [h] at hfst
  simp only [validate_same] at hfst
  have hsnd := updateInterviewStatus_snd id r.status now store
  rw [h] at hsnd
  simp only [validate_same] at hsnd
  refine ⟨applySet r.status (transitionTimestamps r.status now) r, hfst, ?_, rfl, ?_, ?_, ?_⟩
  · rw [hsnd, findById_updateStatus, h]
    simp
  · cases hs : r.status <;> simp [applySet, transitionTimestamps]
  · cases hs : r.status <;> simp [applySet, transitionTimestamps]
  · intro hc
    cases r
    simp_all [applySet, transitionTimestamps]

/-- Claim C1 amended, witness: concrete IN_PROGRESS session updated at time 7. -/
theorem c1_same_status_call_behavior_witness :
    ∃ r', (updateInterviewStatus "s1" InterviewStatus.IN_PROGRESS 7
        [("s1",
          { userId := "u1", domain := "d", difficulty := InterviewDifficulty.EASY,
            duration := InterviewDuration.FIFTEEN_MIN,
            status := InterviewStatus.IN_PROGRESS, startedAt := some 5,
            completedAt := none })]).1 = Except.ok r' ∧
      findById "s1" (updateInterviewStatus "s1" InterviewStatus.IN_PROGRESS 7
        [("s1",
          { userId := "u1", domain := "d", difficulty := InterviewDifficulty.EASY,
            duration := InterviewDuration.FIFTEEN_MIN,
            status := InterviewStatus.IN_PROGRESS, startedAt := some 5,
            completedAt := none })]).2 = some r' ∧
      r'.status = InterviewStatus.IN_PROGRESS ∧
      r'.startedAt = (if (InterviewStatus.IN_PROGRESS : InterviewStatus) =
          InterviewStatus.IN_PROGRESS then some 7 else some 5) ∧
      r'.completedAt = (if (InterviewStatus.IN_PROGRESS : InterviewStatus) =
          InterviewStatus.COMPLETED then some 7 else none) ∧
      (InterviewStatus.IN_PROGRESS = InterviewStatus.CREATED →
        r' = { userId := "u1", domain := "d",
               difficulty := InterviewDifficulty.EASY,
               duration := InterviewDuration.FIFTEEN_MIN,
               status := InterviewStatus.IN_PROGRESS, startedAt := some 5,
               completedAt := none }) :=
  c1_same_status_call_behavior "s1"
    [("s1",
      { userId := "u1", domain := "d", difficulty := InterviewDifficulty.EASY,
        duration := InterviewDuration.FIFTEEN_MIN,
        status := InterviewStatus.IN_PROGRESS, startedAt := some 5,
        completedAt := none })]
    { userId := "u1", domain := "d", difficulty := InterviewDifficulty.EASY,
      duration := InterviewDuration.FIFTEEN_MIN,
      status := InterviewStatus.IN_PROGRESS, startedAt := some 5,
      completedAt := none } 7 (by decide)

/-- Claim C2: when the session exists, the requested status differs from the
current one, and the transition table does not allow it, the call fails with
the invalid-transition error carrying the current status and the legal next
statuses, and the store is returned unchanged — no write happens on the error
path. -/
theorem c2_invalid_transition_rejected (id : String) (store : Store)
    (r : Interview) (ns : InterviewStatus) (now : Nat)
    (hfind : findById id store = some r)
    (hne : ns ≠ r.status)
    (hnot : ns ∉ allowedTransitions r.status) :
    updateInterviewStatus id ns now store =
      (Except.error
        (TransitionError.invalidTransition r.status (allowedTransitions r.status)),
       store) := by
  have hsym : ¬ r.status = ns := fun h => hne h.symm
  unfold updateInterviewStatus
  rw [hfind]
  simp [validateStateTransition, hsym, hnot]

/-- Claim C2, witness: requesting COMPLETED on a session still CREATED fails
with the invalid-transition error listing IN_PROGRESS as the only legal next
status, and leaves the store unchanged. -/
theorem c2_invalid_transition_rejected_witness :
    updateInterviewStatus "s1" InterviewStatus.COMPLETED 7
      [("s1",
        { userId := "u1", domain := "d", difficulty := InterviewDifficulty.EASY,
          duration := InterviewDuration.FIFTEEN_MIN,
          status := InterviewStatus.CREATED, startedAt := none,
          completedAt := none })] =
      (Except.error
        (TransitionError.invalidTransition InterviewStatus.CREATED
          [InterviewStatus.IN_PROGRESS]),
       [("s1",
         { userId := "u1", domain := "d", difficulty := InterviewDifficulty.EASY,
           duration := InterviewDuration.FIFTEEN_MIN,
           status := InterviewStatus.CREATED, startedAt := none,
           completedAt := none })]) :=
  c2_invalid_transition_rejected "s1"
    [("s1",
      { userId := "u1", domain := "d", difficulty := InterviewDifficulty.EASY,
        duration := InterviewDuration.FIFTEEN_MIN,
        status := InterviewStatus.CREATED, startedAt := none,
        completedAt := none })]
    { userId := "u1", domain := "d", difficulty := InterviewDifficulty.EASY,
      duration := InterviewDuration.FIFTEEN_MIN,
      status := InterviewStatus.CREATED, startedAt := none, completedAt := none }
    InterviewStatus.COMPLETED 7 (by decide) (by decide) (by decide)

/-- Position of a status along the forward order CREATED, IN_PROGRESS,
COMPLETED. -/
def statusRank : InterviewStatus → Nat
  | InterviewStatus.CREATED => 0
  | InterviewStatus.IN_PROGRESS => 1
  | InterviewStatus.COMPLETED => 2

/-- One requestTransition call: target session id, requested status, and the
wall-clock time of the call. -/
structure TransitionCall where
  id : String
  status : InterviewStatus
  now : Nat

/-- Effect on the store of a sequence of requestTransition calls (the thrown
errors are discarded; the store is unchanged on every error path). -/
def runTransitions (calls : List TransitionCall) (store : Store) : Store :=
  calls.foldl (fun s c => (updateInterviewStatus c.id c.status c.now s).2) store

theorem allowed_rank_lt (a b : InterviewStatus) (h : b ∈ allowedTransitions a) :
    statusRank a < statusRank b := by
  cases a <;> cases b <;> simp_all [allowedTransitions, statusRank]

theorem step_monotone (c : TransitionCall) (store : Store) (id : String)
    (r : Interview) (h : findById id store = some r) :
    ∃ r', findById id (updateInterviewStatus c.id c.status c.now store).2 = some r' ∧
      statusRank r.status ≤ statusRank r'.status := by
  rw [updateInterviewStatus_snd]
  cases hf : findById c.id store with
  | none => exact ⟨r, by simpa using h, le_refl _⟩
  | some cur =>
    cases hv : validateStateTransition cur.status c.status with
    | some e => exact ⟨r, by simpa [hv] using h, le_refl _⟩
    | none =>
      simp only [hv]
      rw [findById_updateStatus]
      by_cases hid : id = c.id
      · subst hid
        rw [h] at hf
        have hcur : r = cur := by injection hf
        subst hcur
        refine ⟨applySet c.status (transitionTimestamps c.status c.now) r,
          by simp [h], ?_⟩
        have : (applySet c.status (transitionTimestamps c.status c.now) r).status =
            c.status := rfl
        rw [this]
        rcases validate_none _ _ hv with heq | hmem
        · rw [heq]
        · exact le_of_lt (allowed_rank_lt _ _ hmem)
      · exact ⟨r, by simp [hid, h], le_refl _⟩

theorem runTransitions_monotone (calls : List TransitionCall) :
    ∀ store id r, findById id store = some r →
      ∃ r', findById id (runTransitions calls store) = some r' ∧
        statusRank r.status ≤ statusRank r'.status := by
  induction calls with
  | nil => exact fun store id r h => ⟨r, h, le_refl _⟩
  | cons c rest ih =>
    intro store id r h
    obtain ⟨r1, h1, hle1⟩ := step_monotone c store id r h
    obtain ⟨r2, h2, hle2⟩ := ih _ id r1 h1
    exact ⟨r2, h2, le_trans hle1 hle2⟩

/-- Claim C3: sessions are created with status CREATED, and for every session
present in the store, any sequence of requestTransition calls leaves it with a
status whose rank along CREATED, IN_PROGRESS, COMPLETED is at least its old
rank — no sequence of operations ever decreases the status. -/
theorem c3_status_monotone :
    (∀ dto, (createSessionRecord dto).status = InterviewStatus.CREATED) ∧
    (∀ calls store id r, findById id store = some r →
      ∃ r', findById id (runTransitions calls store) = some r' ∧
        statusRank r.status ≤ statusRank r'.status) :=
  ⟨fun _ => rfl, fun calls store id r h => runTransitions_monotone calls store id r h⟩

/-- Claim C3, witness: a CREATED session driven through IN_PROGRESS and
COMPLETED and then hit with two further (rejected) calls never decreases. -/
theorem c3_status_monotone_witness :
    (createSessionRecord
      { userId := "u1", domain := "d", difficulty := InterviewDifficulty.EASY,
        duration := InterviewDuration.FIFTEEN_MIN }).status =
      InterviewStatus.CREATED ∧
    ∃ r', findById "s1"
        (runTransitions
          [{ id := "s1", status := InterviewStatus.IN_PROGRESS, now := 1 },
           { id := "s1", status := InterviewStatus.COMPLETED, now := 2 },
           { id := "s1", status := InterviewStatus.CREATED, now := 3 },
           { id := "s1", status := InterviewStatus.IN_PROGRESS, now := 4 }]
          [("s1",
            { userId := "u1", domain := "d",
              difficulty := InterviewDifficulty.EASY,
              duration := InterviewDuration.FIFTEEN_MIN,
              status := InterviewStatus.CREATED, startedAt := none,
              completedAt := none })]) = some r' ∧
      statusRank InterviewStatus.CREATED ≤ statusRank r'.status :=
  ⟨c3_status_monotone.1
    { userId := "u1", domain := "d", difficulty := InterviewDifficulty.EASY,
      duration := InterviewDuration.FIFTEEN_MIN },
   c3_status_monotone.2
    [{ id := "s1", status := InterviewStatus.IN_PROGRESS, now := 1 },
     { id := "s1", status := InterviewStatus.COMPLETED, now := 2 },
     { id := "s1", status := InterviewStatus.CREATED, now := 3 },
     { id := "s1", status := InterviewStatus.IN_PROGRESS, now := 4 }]
    [("s1",
      { userId := "u1", domain := "d", difficulty := InterviewDifficulty.EASY,
        duration := InterviewDuration.FIFTEEN_MIN,
        status := InterviewStatus.CREATED, startedAt := none,
        completedAt := none })]
    "s1"
    { userId := "u1", domain := "d", difficulty := InterviewDifficulty.EASY,
      duration := InterviewDuration.FIFTEEN_MIN,
      status := InterviewStatus.CREATED, startedAt := none, completedAt := none }
    (by decide)⟩

/-- Timestamp invariant of the spec's data model: startedAt is set iff the
status is IN_PROGRESS or COMPLETED, and completedAt is set iff the status is
COMPLETED. -/
def timestampInv (r : Interview) : Prop :=
  (r.startedAt.isSome = true ↔
    (r.status = InterviewStatus.IN_PROGRESS ∨
     r.status = InterviewStatus.COMPLETED)) ∧
  (r.completedAt.isSome = true ↔ r.status = InterviewStatus.COMPLETED)

theorem mem_allowed_cases (s ns : InterviewStatus)
    (h : ns ∈ allowedTransitions s) :
    (s = InterviewStatus.CREATED ∧ ns = InterviewStatus.IN_PROGRESS) ∨
    (s = InterviewStatus.IN_PROGRESS ∧ ns = InterviewStatus.COMPLETED) := by
  cases s <;> cases ns <;> simp_all [allowedTransitions]

instance timestampInvDecidable (r : Interview) : Decidable (timestampInv r) := by
  unfold timestampInv
  infer_instance

theorem applySet_inv (r : Interview) (ns : InterviewStatus) (now : Nat)
    (hr : timestampInv r) (hv : validateStateTransition r.status ns = none) :
    timestampInv (applySet ns (transitionTimestamps ns now) r) := by
  obtain ⟨h1, h2⟩ := hr
  rcases validate_none _ _ hv with heq | hmem
  · subst heq
    cases hS : r.status <;> simp_all [timestampInv, applySet, transitionTimestamps]
  · rcases mem_allowed_cases _ _ hmem with ⟨hS, hN⟩ | ⟨hS, hN⟩ <;> subst hN <;>
      simp_all [timestampInv, applySet, transitionTimestamps]

/-- Claim C7: session creation yields status CREATED with both timestamps null
(so the invariant holds), every requestTransition call preserves the invariant
for every record in the store, and a successful call requesting IN_PROGRESS
from a different status sets startedAt to the current time and leaves
completedAt null, while one requesting COMPLETED sets completedAt and leaves
startedAt unchanged. -/
theorem c7_timestamp_invariant :
    (∀ dto, timestampInv (createSessionRecord dto) ∧
      (createSessionRecord dto).status = InterviewStatus.CREATED ∧
      (createSessionRecord dto).startedAt = none ∧
      (createSessionRecord dto).completedAt = none) ∧
    (∀ id ns now store,
      (∀ i rec, findById i store = some rec → timestampInv rec) →
      ∀ i rec', findById i (updateInterviewStatus id ns now store).2 = some rec' →
        timestampInv rec') ∧
    (∀ id ns now store r r',
      findById id store = some r → timestampInv r →
      (updateInterviewStatus id ns now store).1 = Except.ok r' →
      timestampInv r' ∧
      (ns = InterviewStatus.IN_PROGRESS → r.status ≠ ns →
        r'.startedAt = some now ∧ r'.completedAt = none) ∧
      (ns = InterviewStatus.COMPLETED → r.status ≠ ns →
        r'.completedAt = some now ∧ r'.startedAt = r.startedAt)) := by
  refine ⟨?_, ?_, ?_⟩
  · intro dto
    exact ⟨by simp [timestampInv, createSessionRecord], rfl, rfl, rfl⟩
  · intro id ns now store hstore i rec' hfind
    rw [updateInterviewStatus_snd] at hfind
    cases hf : findById id store with
    | none =>
      rw [hf] at hfind
      exact hstore i rec' (by simpa using hfind)
    | some cur =>
      rw [hf] at hfind
      cases hv : validateStateTransition cur.status ns with
      | some e =>
        simp only [hv] at hfind
        exact hstore i rec' hfind
      | none =>
        simp only [hv] at hfind
        rw [findById_updateStatus] at hfind
        by_cases hi : i = id
        · subst hi
          rw [hf] at hfind
          simp at hfind
          subst hfind
          exact applySet_inv cur ns now (hstore i cur hf) hv
        · rw [if_neg hi] at hfind
          exact hstore i rec' hfind
  · intro id ns now store r r' hfind hinv hok
    obtain ⟨r0, hf0, hv0, hr', _⟩ := updateInterviewStatus_ok id ns now store r' hok
    have hr0 : r0 = r := by
      have := hf0.symm.trans hfind
      injection this
    subst hr0
    subst hr'
    refine ⟨applySet_inv r0 ns now hinv hv0, ?_, ?_⟩
    · intro hns hne
      subst hns
      have hmem : InterviewStatus.IN_PROGRESS ∈ allowedTransitions r0.status := by
        rcases validate_none _ _ hv0 with heq | hmem
        · exact absurd heq hne
        · exact hmem
      rcases mem_allowed_cases _ _ hmem with ⟨hS, _⟩ | ⟨hS, hN⟩
      · constructor
        · rfl
        · have h2 := hinv.2
          rw [hS] at h2
          simp only [applySet, transitionTimestamps]
          simp at h2
          simp [h2]
      · exact absurd hN (by decide)
    · intro hns hne
      subst hns
      exact ⟨rfl, rfl⟩

/-- Claim C7, witness: the creation clause at a concrete dto, the preservation
clause on a concrete one-session store, and the effect clause for the concrete
CREATED to IN_PROGRESS transition. -/
theorem c7_timestamp_invariant_witness :
    (timestampInv (createSessionRecord
        { userId := "u1", domain := "d", difficulty := InterviewDifficulty.EASY,
          duration := InterviewDuration.FIFTEEN_MIN }) ∧
      (createSessionRecord
        { userId := "u1", domain := "d", difficulty := InterviewDifficulty.EASY,
          duration := InterviewDuration.FIFTEEN_MIN }).status =
        InterviewStatus.CREATED ∧
      (createSessionRecord
        { userId := "u1", domain := "d", difficulty := InterviewDifficulty.EASY,
          duration := InterviewDuration.FIFTEEN_MIN }).startedAt = none ∧
      (createSessionRecord
        { userId := "u1", domain := "d", difficulty := InterviewDifficulty.EASY,
          duration := InterviewDuration.FIFTEEN_MIN }).completedAt = none) ∧
    timestampInv
      { userId := "u1", domain := "d", difficulty := InterviewDifficulty.EASY,
        duration := InterviewDuration.FIFTEEN_MIN,
        status := InterviewStatus.IN_PROGRESS, startedAt := some 3,
        completedAt := none } ∧
    (timestampInv
        { userId := "u1", domain := "d", difficulty := InterviewDifficulty.EASY,
          duration := InterviewDuration.FIFTEEN_MIN,
          status := InterviewStatus.IN_PROGRESS, startedAt := some 3,
          completedAt := none } ∧
      (InterviewStatus.IN_PROGRESS = InterviewStatus.IN_PROGRESS →
        InterviewStatus.CREATED ≠ InterviewStatus.IN_PROGRESS →
        ({ userId := "u1", domain := "d", difficulty := InterviewDifficulty.EASY,
           duration := InterviewDuration.FIFTEEN_MIN,
           status := InterviewStatus.IN_PROGRESS, startedAt := some 3,
           completedAt := none } : Interview).startedAt = some 3 ∧
        ({ userId := "u1", domain := "d", difficulty := InterviewDifficulty.EASY,
           duration := InterviewDuration.FIFTEEN_MIN,
           status := InterviewStatus.IN_PROGRESS, startedAt := some 3,
           completedAt := none } : Interview).completedAt = none) ∧
      (InterviewStatus.IN_PROGRESS = InterviewStatus.COMPLETED →
        InterviewStatus.CREATED ≠ InterviewStatus.IN_PROGRESS →
        ({ userId := "u1", domain := "d", difficulty := InterviewDifficulty.EASY,
           duration := InterviewDuration.FIFTEEN_MIN,
           status := InterviewStatus.IN_PROGRESS, startedAt := some 3,
           completedAt := none } : Interview).completedAt = some 3 ∧
        ({ userId := "u1", domain := "d", difficulty := InterviewDifficulty.EASY,
           duration := InterviewDuration.FIFTEEN_MIN,
           status := InterviewStatus.IN_PROGRESS, startedAt := some 3,
           completedAt := none } : Interview).startedAt = none)) := by
  refine ⟨c7_timestamp_invariant.1
    { userId := "u1", domain := "d", difficulty := InterviewDifficulty.EASY,
      duration := InterviewDuration.FIFTEEN_MIN }, ?_, ?_⟩
  · exact c7_timestamp_invariant.2.1 "s1" InterviewStatus.IN_PROGRESS 3
      [("s1",
        { userId := "u1", domain := "d", difficulty := InterviewDifficulty.EASY,
          duration := InterviewDuration.FIFTEEN_MIN,
          status := InterviewStatus.CREATED, startedAt := none,
          completedAt := none })]
      (by
        intro i rec h
        simp only [findById] at h
        by_cases hi : "s1" = i
        · rw [if_pos hi] at h
          injection h with h
          subst h
          decide
        · rw [if_neg hi] at h
          exact absurd h (by simp)) "s1"
      { userId := "u1", domain := "d", difficulty := InterviewDifficulty.EASY,
        duration := InterviewDuration.FIFTEEN_MIN,
        status := InterviewStatus.IN_PROGRESS, startedAt := some 3,
        completedAt := none }
      (by decide)
  · exact c7_timestamp_invariant.2.2 "s1" InterviewStatus.IN_PROGRESS 3
      [("s1",
        { userId := "u1", domain := "d", difficulty := InterviewDifficulty.EASY,
          duration := InterviewDuration.FIFTEEN_MIN,
          status := InterviewStatus.CREATED, startedAt := none,
          completedAt := none })]
      { userId := "u1", domain := "d", difficulty := InterviewDifficulty.EASY,
        duration := InterviewDuration.FIFTEEN_MIN,
        status := InterviewStatus.CREATED, startedAt := none,
        completedAt := none }
      { userId := "u1", domain := "d", difficulty := InterviewDifficulty.EASY,
        duration := InterviewDuration.FIFTEEN_MIN,
        status := InterviewStatus.IN_PROGRESS, startedAt := some 3,
        completedAt := none }
      (by decide) (by decide) (by rfl)

/-! Helper lemmas about the gateway embedding. -/

theorem severities_indexOf_getD (k : Nat) (hk : k < 3) :
    severities.indexOf (severities.getD k FeedbackSeverity.LOW) = k := by
  rcases (by omega : k = 0 ∨ k = 1 ∨ k = 2) with rfl | rfl | rfl <;> decide

/-- Closed form of generateMockFeedback: the source's list-length indexing and
indexOf round trip collapse to plain mod-4 and mod-3 indexing. -/
theorem generateMockFeedback_eq (count now : Nat) :
    generateMockFeedback count now =
      { type := feedbackTypes.getD (count % 4) FeedbackType.PACE
        message :=
          (messagesFor (feedbackTypes.getD (count % 4) FeedbackType.PACE)).getD
            (count % 3) ""
        severity := severities.getD (count % 3) FeedbackSeverity.LOW
        timestamp := now } := by
  have h4 : feedbackTypes.length = 4 := rfl
  have h3 : severities.length = 3 := rfl
  simp only [generateMockFeedback, h4, h3,
    severities_indexOf_getD (count % 3) (Nat.mod_lt _ (by norm_num))]

/-- Claim C6: the event generated for counter value count has type equal to the
element at index count mod 4 of the ordered type list, severity equal to the
element at index count mod 3 of the ordered severity list, and message equal to
the fixed lookup-table entry for that type and severity index; the
(type, severity, message) triple does not depend on the emission time, so the
sequence is a deterministic function of the counter. -/
theorem c6_deterministic_selection (count now now' : Nat) :
    (generateMockFeedback count now).type =
      feedbackTypes.getD (count % 4) FeedbackType.PACE ∧
    (generateMockFeedback count now).severity =
      severities.getD (count % 3) FeedbackSeverity.LOW ∧
    (generateMockFeedback count now).message =
      (messagesFor (generateMockFeedback count now).type).getD (count % 3) "" ∧
    (generateMockFeedback count now).type = (generateMockFeedback count now').type ∧
    (generateMockFeedback count now).severity =
      (generateMockFeedback count now').severity ∧
    (generateMockFeedback count now).message =
      (generateMockFeedback count now').message := by
  rw [generateMockFeedback_eq count now, generateMockFeedback_eq count now']
  exact ⟨rfl, rfl, rfl, rfl, rfl, rfl⟩

/-- Claim C9 (code bug): the start handler does not reject an empty sessionId —
evaluated at sessionId "" on a fresh connection, it registers an
ActiveFeedbackSession bound to "" and arms the recurring feedback timer, so the
emission loop starts. -/
theorem c9_empty_session_id_starts_loop :
    (handleStartInterviewSession "c1" "" 0 initialGateway).activeSessions =
      [("c1",
        { sessionId := "", clientId := "c1", feedbackTimer := 0,
          startTime := 0 })] ∧
    (handleStartInterviewSession "c1" "" 0 initialGateway).timers =
      [{ handle := 0, clientId := "c1", sessionId := "", feedbackCount := 0 }] := by
  constructor <;> rfl

theorem lookupKey_setKey_self {β : Type} (k : String) (v : β)
    (l : List (String × β)) : lookupKey k (setKey k v l) = some v := by
  simp [setKey, lookupKey]

theorem lookupKey_eraseKey_self {β : Type} (k : String) (l : List (String × β)) :
    lookupKey k (eraseKey k l) = none := by
  induction l with
  | nil => rfl
  | cons p rest ih =>
    obtain ⟨k', v⟩ := p
    by_cases hk : k' = k <;> simp [eraseKey, lookupKey, hk, ih]

theorem lookupKey_eraseKey_ne {β : Type} (k k' : String)
    (l : List (String × β)) (h : ¬ k = k') :
    lookupKey k (eraseKey k' l) = lookupKey k l := by
  induction l with
  | nil => rfl
  | cons p rest ih =>
    obtain ⟨k0, v0⟩ := p
    by_cases h0 : k0 = k'
    · subst h0
      have : ¬ k0 = k := fun hc => h hc.symm
      simp [eraseKey, lookupKey, this, ih]
    · by_cases h1 : k0 = k <;> simp [eraseKey, lookupKey, h0, h1, h, ih]

theorem lookupKey_setKey_ne {β : Type} (k k' : String) (v : β)
    (l : List (String × β)) (h : ¬ k = k') :
    lookupKey k (setKey k' v l) = lookupKey k l := by
  have : ¬ k' = k := fun hc => h hc.symm
  simp [setKey, lookupKey, this, lookupKey_eraseKey_ne k k' l h]

theorem eraseKey_idem {β : Type} (k : String) (l : List (String × β)) :
    eraseKey k (eraseKey k l) = eraseKey k l := by
  induction l with
  | nil => rfl
  | cons p rest ih =>
    obtain ⟨k0, v0⟩ := p
    by_cases h0 : k0 = k <;> simp [eraseKey, h0, ih]

theorem eraseKey_setKey {β : Type} (k : String) (v : β) (l : List (String × β)) :
    eraseKey k (setKey k v l) = eraseKey k l := by
  simp [setKey, eraseKey, eraseKey_idem]

/-- Number of map entries stored under a key. -/
def countKey {β : Type} (k : String) (l : List (String × β)) : Nat :=
  (l.filter (fun p => p.1 == k)).length

theorem countKey_eraseKey_self {β : Type} (k : String) (l : List (String × β)) :
    countKey k (eraseKey k l) = 0 := by
  induction l with
  | nil => rfl
  | cons p rest ih =>
    obtain ⟨k0, v0⟩ := p
    by_cases h0 : k0 = k <;> simp [eraseKey, countKey, h0, ih] <;>
      simpa [countKey] using ih

theorem countKey_setKey_self {β : Type} (k : String) (v : β)
    (l : List (String × β)) : countKey k (setKey k v l) = 1 := by
  have h := countKey_eraseKey_self k l
  simp [setKey, countKey] at h ⊢
  simpa [countKey] using h

theorem findTimer_clearInterval_self (h : Nat) (l : List IntervalTimer) :
    findTimer h (clearInterval h l) = none := by
  induction l with
  | nil => rfl
  | cons t rest ih =>
    by_cases ht : t.handle = h <;> simp [clearInterval, findTimer, ht, ih] <;>
      simpa [clearInterval] using ih

theorem clearInterval_of_ne (h : Nat) (l : List IntervalTimer)
    (hl : ∀ t ∈ l, t.handle ≠ h) : clearInterval h l = l := by
  induction l with
  | nil => rfl
  | cons t rest ih =>
    have ht := hl t (by simp)
    simp [clearInterval, ht]
    have := ih (fun t' ht' => hl t' (by simp [ht']))
    simpa [clearInterval] using this

theorem setTimerCount_of_ne (h c : Nat) (l : List IntervalTimer)
    (hl : ∀ t ∈ l, t.handle ≠ h) : setTimerCount h c l = l := by
  induction l with
  | nil => rfl
  | cons t rest ih =>
    have ht := hl t (by simp)
    simp [setTimerCount, ht]
    have := ih (fun t' ht' => hl t' (by simp [ht']))
    simpa [setTimerCount] using this

theorem cleanup_nextTimer (c : String) (st : GatewayState) :
    (cleanupClientSession c st).nextTimer = st.nextTimer := by
  unfold cleanupClientSession
  cases hl : lookupKey c st.activeSessions <;> simp

theorem cleanup_emitted (c : String) (st : GatewayState) :
    (cleanupClientSession c st).emitted = st.emitted := by
  unfold cleanupClientSession
  cases hl : lookupKey c st.activeSessions <;> simp

theorem tick_of_none (h now : Nat) (st : GatewayState)
    (hn : findTimer h st.timers = none) : tick h now st = st := by
  unfold tick
  rw [hn]

/-- Claim C5: after beginMonitoring with s1 followed by beginMonitoring with s2
on the same connection, exactly one map entry exists for the connection and it
is bound to s2 with the second timer; the second timer is armed with counter 0;
the timer created for s1 is no longer armed, and a firing of the s1 timer
handle is a complete no-op — so no feedback event produced after the second
call references s1. -/
theorem c5_replace_semantics (st : GatewayState) (c s1 s2 : String)
    (t1 t2 : Nat) :
    countKey c
      (handleStartInterviewSession c s2 t2
        (handleStartInterviewSession c s1 t1 st)).activeSessions = 1 ∧
    lookupKey c
      (handleStartInterviewSession c s2 t2
        (handleStartInterviewSession c s1 t1 st)).activeSessions =
      some { sessionId := s2, clientId := c, feedbackTimer := st.nextTimer + 1,
             startTime := t2 } ∧
    findTimer (st.nextTimer + 1)
      (handleStartInterviewSession c s2 t2
        (handleStartInterviewSession c s1 t1 st)).timers =
      some { handle := st.nextTimer + 1, clientId := c, sessionId := s2,
             feedbackCount := 0 } ∧
    findTimer st.nextTimer
      (handleStartInterviewSession c s2 t2
        (handleStartInterviewSession c s1 t1 st)).timers = none ∧
    (∀ now, tick st.nextTimer now
        (handleStartInterviewSession c s2 t2
          (handleStartInterviewSession c s1 t1 st)) =
      handleStartInterviewSession c s2 t2
        (handleStartInterviewSession c s1 t1 st)) := by
  set st1 := handleStartInterviewSession c s1 t1 st with hst1
  have h1 : st1.nextTimer = st.nextTimer + 1 := by
    simp [hst1, handleStartInterviewSession, cleanup_nextTimer]
  have hlook1 : lookupKey c st1.activeSessions =
      some { sessionId := s1, clientId := c, feedbackTimer := st.nextTimer,
             startTime := t1 } := by
    simp [hst1, handleStartInterviewSession, lookupKey_setKey_self,
      cleanup_nextTimer]
  have htimers1 : st1.timers =
      { handle := st.nextTimer, clientId := c, sessionId := s1,
        feedbackCount := 0 } :: (cleanupClientSession c st).timers := by
    simp [hst1, handleStartInterviewSession, cleanup_nextTimer]
  have hclean2 : cleanupClientSession c st1 =
      { st1 with
          timers := clearInterval st.nextTimer st1.timers
          activeSessions := eraseKey c st1.activeSessions } := by
    unfold cleanupClientSession
    rw [hlook1]
  have hfind_none : findTimer st.nextTimer
      (handleStartInterviewSession c s2 t2 st1).timers = none := by
    simp only [handleStartInterviewSession, hclean2]
    have hne : ¬ (st.nextTimer + 1) = st.nextTimer := by omega
    simp [findTimer, h1, hne, findTimer_clearInterval_self]
  refine ⟨?_, ?_, ?_, hfind_none, ?_⟩
  · simp [handleStartInterviewSession, countKey_setKey_self]
  · simp only [handleStartInterviewSession, hclean2]
    rw [lookupKey_setKey_self]
    simp [h1]
  · simp only [handleStartInterviewSession, hclean2]
    simp [findTimer, h1]
  · intro now
    exact tick_of_none _ _ _ hfind_none

/-- Concrete event appended by a single tick (used as shared vocabulary by the
loop lemmas below). -/
def tickEvent (c s : String) (k now : Nat) : EmittedEvent :=
  { clientId := c, sessionId := s, event := generateMockFeedback k now }

/-- Claim C10: a tick of a timer whose closure counter is k emits exactly one
event, generated for counter value k plus one (increment happens before
selection), so tick i of a fresh loop selects with counter i; the first event
of every loop therefore has type FILLER and severity MEDIUM; the (PACE, LOW)
combination occurs exactly at counter values divisible by 12, hence never among
the 10 events of a capped loop. -/
theorem c10_counter_increment_selection :
    (∀ h now st t, findTimer h st.timers = some t →
      (tick h now st).emitted =
        st.emitted ++ [tickEvent t.clientId t.sessionId (t.feedbackCount + 1) now]) ∧
    (∀ now, (generateMockFeedback 1 now).type = FeedbackType.FILLER ∧
      (generateMockFeedback 1 now).severity = FeedbackSeverity.MEDIUM) ∧
    (∀ i now, ((generateMockFeedback i now).type = FeedbackType.PACE ∧
        (generateMockFeedback i now).severity = FeedbackSeverity.LOW) ↔
      i % 12 = 0) ∧
    (∀ i now, 1 ≤ i → i ≤ 10 →
      ¬((generateMockFeedback i now).type = FeedbackType.PACE ∧
        (generateMockFeedback i now).severity = FeedbackSeverity.LOW)) := by
  have hiff : ∀ i now, ((generateMockFeedback i now).type = FeedbackType.PACE ∧
      (generateMockFeedback i now).severity = FeedbackSeverity.LOW) ↔
      i % 12 = 0 := by
    intro i now
    rw [generateMockFeedback_eq]
    have h4 : i % 4 = 0 ∨ i % 4 = 1 ∨ i % 4 = 2 ∨ i % 4 = 3 := by omega
    have h3 : i % 3 = 0 ∨ i % 3 = 1 ∨ i % 3 = 2 := by omega
    constructor
    · rintro ⟨hty, hsev⟩
      have h40 : i % 4 = 0 := by
        rcases h4 with h | h | h | h
        · exact h
        · rw [h] at hty; simp [feedbackTypes] at hty
        · rw [h] at hty; simp [feedbackTypes] at hty
        · rw [h] at hty; simp [feedbackTypes] at hty
      have h30 : i % 3 = 0 := by
        rcases h3 with h | h | h
        · exact h
        · rw [h] at hsev; simp [severities] at hsev
        · rw [h] at hsev; simp [severities] at hsev
      omega
    · intro h12
      have h40 : i % 4 = 0 := by omega
      have h30 : i % 3 = 0 := by omega
      rw [h40, h30]
      exact ⟨rfl, rfl⟩
  refine ⟨?_, ?_, hiff, ?_⟩
  · intro h now st t ht
    unfold tick
    rw [ht]
    simp only
    by_cases hcap : 10 ≤ t.feedbackCount + 1
    · rw [if_pos hcap, cleanup_emitted]
      rfl
    · rw [if_neg hcap]
      rfl
  · intro now
    rw [generateMockFeedback_eq]
    exact ⟨rfl, rfl⟩
  · intro i now h1 h10 hcon
    have := (hiff i now).1 hcon
    omega

/-- Claim C10, witness: the tick conjunct evaluated on a one-timer state with
counter 3, and the no-PACE-LOW conjunct at counter 1. -/
theorem c10_counter_increment_selection_witness :
    (tick 0 5
        { activeSessions :=
            [("c1",
              { sessionId := "sA", clientId := "c1", feedbackTimer := 0,
                startTime := 0 })]
          timers :=
            [{ handle := 0, clientId := "c1", sessionId := "sA",
               feedbackCount := 3 }]
          nextTimer := 1
          emitted := [] }).emitted =
      [] ++ [tickEvent "c1" "sA" 4 5] ∧
    ¬((generateMockFeedback 1 9).type = FeedbackType.PACE ∧
      (generateMockFeedback 1 9).severity = FeedbackSeverity.LOW) :=
  ⟨c10_counter_increment_selection.1 0 5
    { activeSessions :=
        [("c1",
          { sessionId := "sA", clientId := "c1", feedbackTimer := 0,
            startTime := 0 })]
      timers :=
        [{ handle := 0, clientId := "c1", sessionId := "sA",
           feedbackCount := 3 }]
      nextTimer := 1
      emitted := [] }
    { handle := 0, clientId := "c1", sessionId := "sA", feedbackCount := 3 }
    (by decide),
   c10_counter_increment_selection.2.2.2 1 9 (by decide) (by decide)⟩

/-! Characterization of a running emission loop, for the cap claim. -/

/-- Events a loop bound to client c and session s appends when its ticks fire
at the given times, starting from closure counter k. -/
def loopEmissions (c s : String) : List Nat → Nat → List EmittedEvent
  | [], _ => []
  | now :: rest, k => tickEvent c s (k + 1) now :: loopEmissions c s rest (k + 1)

/-- Gateway state while a loop with timer handle h and counter k is running for
client c and session s, over arbitrary surrounding state. -/
def midState (c s : String) (h t0 k : Nat) (restT : List IntervalTimer)
    (as0 : List (String × ActiveSession)) (em : List EmittedEvent) :
    GatewayState :=
  { activeSessions :=
      setKey c
        { sessionId := s, clientId := c, feedbackTimer := h, startTime := t0 }
        as0
    timers :=
      { handle := h, clientId := c, sessionId := s, feedbackCount := k } :: restT
    nextTimer := h + 1
    emitted := em }

/-- Gateway state after the loop has torn itself down at the cap. -/
def cappedState (c : String) (h : Nat) (restT : List IntervalTimer)
    (as0 : List (String × ActiveSession)) (em : List EmittedEvent) :
    GatewayState :=
  { activeSessions := eraseKey c as0, timers := restT, nextTimer := h + 1,
    emitted := em }

theorem setTimerCount_cons (h c : Nat) (t : IntervalTimer)
    (l : List IntervalTimer) :
    setTimerCount h c (t :: l) =
      (if t.handle = h then { t with feedbackCount := c } else t) ::
        setTimerCount h c l := rfl

theorem clearInterval_cons (h : Nat) (t : IntervalTimer)
    (l : List IntervalTimer) :
    clearInterval h (t :: l) =
      if t.handle = h then clearInterval h l else t :: clearInterval h l := by
  by_cases ht : t.handle = h <;> simp [clearInterval, ht]

theorem findTimer_of_ne (h : Nat) (l : List IntervalTimer)
    (hl : ∀ t ∈ l, t.handle ≠ h) : findTimer h l = none := by
  induction l with
  | nil => rfl
  | cons t rest ih =>
    have ht := hl t (by simp)
    simp [findTimer, ht]
    exact ih fun t' ht' => hl t' (by simp [ht'])

theorem runTicks_cons (h now : Nat) (rest : List Nat) (st : GatewayState) :
    runTicks h (now :: rest) st = runTicks h rest (tick h now st) := rfl

theorem handleStart_eq_midState (c s : String) (t0 : Nat) (st : GatewayState) :
    handleStartInterviewSession c s t0 st =
      midState c s st.nextTimer t0 0 (cleanupClientSession c st).timers
        (cleanupClientSession c st).activeSessions st.emitted := by
  simp only [handleStartInterviewSession, midState, cleanup_nextTimer,
    cleanup_emitted]

theorem tick_midState_lt (c s : String) (h t0 k now : Nat)
    (restT : List IntervalTimer) (as0 : List (String × ActiveSession))
    (em : List EmittedEvent)
    (hrest : ∀ t ∈ restT, t.handle ≠ h) (hk : k + 1 < 10) :
    tick h now (midState c s h t0 k restT as0 em) =
      midState c s h t0 (k + 1) restT as0 (em ++ [tickEvent c s (k + 1) now]) := by
  unfold tick
  have hfind : findTimer h (midState c s h t0 k restT as0 em).timers =
      some { handle := h, clientId := c, sessionId := s, feedbackCount := k } := by
    simp [midState, findTimer]
  rw [hfind]
  simp only
  rw [if_neg (by omega : ¬ 10 ≤ k + 1)]
  unfold midState
  simp [setTimerCount_cons, setTimerCount_of_ne h (k + 1) restT hrest, tickEvent]

theorem tick_midState_cap (c s : String) (h t0 now : Nat)
    (restT : List IntervalTimer) (as0 : List (String × ActiveSession))
    (em : List EmittedEvent) (hrest : ∀ t ∈ restT, t.handle ≠ h) :
    tick h now (midState c s h t0 9 restT as0 em) =
      cappedState c h restT as0 (em ++ [tickEvent c s 10 now]) := by
  unfold tick
  have hfind : findTimer h (midState c s h t0 9 restT as0 em).timers =
      some { handle := h, clientId := c, sessionId := s, feedbackCount := 9 } := by
    simp [midState, findTimer]
  rw [hfind]
  simp only
  rw [if_pos (by omega : 10 ≤ 9 + 1)]
  unfold cleanupClientSession
  have hlook : lookupKey c
      (setKey c
        { sessionId := s, clientId := c, feedbackTimer := h, startTime := t0 }
        as0) =
      some { sessionId := s, clientId := c, feedbackTimer := h, startTime := t0 } :=
    lookupKey_setKey_self c _ as0
  simp only [midState, hlook]
  unfold cappedState
  simp [eraseKey_setKey, setTimerCount_cons, clearInterval_cons,
    setTimerCount_of_ne h 10 restT hrest, clearInterval_of_ne h restT hrest,
    tickEvent]

theorem runTicks_cappedState (c : String) (h : Nat)
    (restT : List IntervalTimer) (as0 : List (String × ActiveSession))
    (em : List EmittedEvent) (hrest : ∀ t ∈ restT, t.handle ≠ h)
    (times : List Nat) :
    runTicks h times (cappedState c h restT as0 em) =
      cappedState c h restT as0 em := by
  induction times with
  | nil => rfl
  | cons now rest ih =>
    rw [runTicks_cons, tick_of_none h now _ (findTimer_of_ne h restT hrest), ih]

theorem runTicks_loop (c s : String) (h t0 : Nat)
    (restT : List IntervalTimer) (as0 : List (String × ActiveSession))
    (hrest : ∀ t ∈ restT, t.handle ≠ h) :
    ∀ (times : List Nat) (k : Nat) (em : List EmittedEvent), k < 10 →
      runTicks h times (midState c s h t0 k restT as0 em) =
        (if k + times.length < 10 then
          midState c s h t0 (k + times.length) restT as0
            (em ++ loopEmissions c s times k)
        else
          cappedState c h restT as0
            (em ++ loopEmissions c s (times.take (10 - k)) k)) := by
  intro times
  induction times with
  | nil =>
    intro k em hk
    rw [if_pos (by simpa using hk)]
    simp [runTicks, loopEmissions]
  | cons now rest ih =>
    intro k em hk
    rw [runTicks_cons]
    by_cases hk1 : k + 1 < 10
    · rw [tick_midState_lt c s h t0 k now restT as0 em hrest hk1,
        ih (k + 1) _ hk1]
      have harith : k + (now :: rest).length = (k + 1) + rest.length := by
        simp
        omega
      by_cases hlt : (k + 1) + rest.length < 10
      · rw [if_pos hlt, if_pos (by omega : k + (now :: rest).length < 10)]
        rw [harith]
        simp [loopEmissions]
      · rw [if_neg hlt, if_neg (by omega : ¬ k + (now :: rest).length < 10)]
        have htake : 10 - k = (10 - (k + 1)) + 1 := by omega
        rw [htake, List.take_succ_cons]
        simp [loopEmissions]
    · have hk9 : k = 9 := by omega
      subst hk9
      rw [tick_midState_cap c s h t0 now restT as0 em hrest,
        runTicks_cappedState c h restT as0 _ hrest rest]
      rw [if_neg (by simp; omega : ¬ 9 + (now :: rest).length < 10)]
      have : 10 - 9 = 1 := by omega
      rw [this, List.take_succ_cons, List.take_zero]
      simp [loopEmissions]

theorem loopEmissions_length (c s : String) (times : List Nat) :
    ∀ k, (loopEmissions c s times k).length = times.length := by
  induction times with
  | nil => intro k; rfl
  | cons now rest ih => intro k; simp [loopEmissions, ih]

theorem loopEmissions_mem (c s : String) (times : List Nat) :
    ∀ k e, e ∈ loopEmissions c s times k → e.clientId = c ∧ e.sessionId = s := by
  induction times with
  | nil => intro k e he; simp [loopEmissions] at he
  | cons now rest ih =>
    intro k e he
    simp only [loopEmissions, List.mem_cons] at he
    rcases he with he | he
    · subst he; exact ⟨rfl, rfl⟩
    · exact ih (k + 1) e he

theorem cleanup_timers_subset (c : String) (st : GatewayState)
    (t : IntervalTimer) (ht : t ∈ (cleanupClientSession c st).timers) :
    t ∈ st.timers := by
  unfold cleanupClientSession at ht
  cases hl : lookupKey c st.activeSessions <;> simp only [hl] at ht
  · exact ht
  · exact (List.mem_filter.mp ht).1

/-- Claim C4: a monitoring loop started on a client and never interrupted by a
disconnect or restart emits exactly 10 feedback events, all bound to that
client and session; after the 9th tick the ActiveFeedbackSession is still
registered, while the 10th tick tears it down (registration gone and timer
disarmed), and any ticks after the cap leave the state completely unchanged —
the run over any schedule of at least 10 tick times equals the run over its
first 10. -/
theorem c4_emission_cap (st : GatewayState) (c s : String) (t0 : Nat)
    (times : List Nat)
    (hfresh : ∀ t ∈ st.timers, t.handle < st.nextTimer)
    (hlen : 10 ≤ times.length) :
    (runTicks st.nextTimer times
        (handleStartInterviewSession c s t0 st)).emitted =
      st.emitted ++ loopEmissions c s (times.take 10) 0 ∧
    (loopEmissions c s (times.take 10) 0).length = 10 ∧
    (∀ e ∈ loopEmissions c s (times.take 10) 0,
      e.clientId = c ∧ e.sessionId = s) ∧
    findTimer st.nextTimer
      (runTicks st.nextTimer times
        (handleStartInterviewSession c s t0 st)).timers = none ∧
    lookupKey c
      (runTicks st.nextTimer times
        (handleStartInterviewSession c s t0 st)).activeSessions = none ∧
    runTicks st.nextTimer times (handleStartInterviewSession c s t0 st) =
      runTicks st.nextTimer (times.take 10)
        (handleStartInterviewSession c s t0 st) ∧
    lookupKey c
      (runTicks st.nextTimer (times.take 9)
        (handleStartInterviewSession c s t0 st)).activeSessions =
      some { sessionId := s, clientId := c, feedbackTimer := st.nextTimer,
             startTime := t0 } := by
  have hrest : ∀ t ∈ (cleanupClientSession c st).timers,
      t.handle ≠ st.nextTimer := by
    intro t ht
    have := hfresh t (cleanup_timers_subset c st t ht)
    omega
  rw [handleStart_eq_midState]
  have hfull := runTicks_loop c s st.nextTimer t0
    (cleanupClientSession c st).timers (cleanupClientSession c st).activeSessions
    hrest times 0 st.emitted (by omega)
  rw [if_neg (by omega : ¬ 0 + times.length < 10)] at hfull
  simp only [Nat.zero_add, Nat.sub_zero] at hfull
  have htake10 := runTicks_loop c s st.nextTimer t0
    (cleanupClientSession c st).timers (cleanupClientSession c st).activeSessions
    hrest (times.take 10) 0 st.emitted (by omega)
  have hlen10 : (times.take 10).length = 10 := by
    rw [List.length_take]
    omega
  rw [if_neg (by omega : ¬ 0 + (times.take 10).length < 10)] at htake10
  simp only [Nat.zero_add, Nat.sub_zero, List.take_take, Nat.min_self]
    at htake10
  have htake9 := runTicks_loop c s st.nextTimer t0
    (cleanupClientSession c st).timers (cleanupClientSession c st).activeSessions
    hrest (times.take 9) 0 st.emitted (by omega)
  have hlen9 : (times.take 9).length = 9 := by
    rw [List.length_take]
    omega
  rw [if_pos (by omega : 0 + (times.take 9).length < 10)] at htake9
  refine ⟨?_, ?_, fun e he => loopEmissions_mem c s (times.take 10) 0 e he,
    ?_, ?_, ?_, ?_⟩
  · rw [hfull]
    rfl
  · rw [loopEmissions_length, hlen10]
  · rw [hfull]
    exact findTimer_of_ne _ _ hrest
  · rw [hfull]
    exact lookupKey_eraseKey_self c _
  · rw [hfull, htake10]
  · rw [htake9]
    exact lookupKey_setKey_self c _ _

/-- Claim C4, witness: a loop started on a fresh gateway, fired 11 times,
emits the 10 capped events and leaves no registration for the client. -/
theorem c4_emission_cap_witness :
    (loopEmissions "c1" "sA"
      ([1, 2, 3, 4, 5, 6, 7, 8, 9, 10, 11].take 10) 0).length = 10 ∧
    lookupKey "c1"
      (runTicks 0 [1, 2, 3, 4, 5, 6, 7, 8, 9, 10, 11]
        (handleStartInterviewSession "c1" "sA" 0
          initialGateway)).activeSessions = none :=
  ⟨(c4_emission_cap initialGateway "c1" "sA" 0
      [1, 2, 3, 4, 5, 6, 7, 8, 9, 10, 11] (by simp [initialGateway])
      (by decide)).2.1,
   (c4_emission_cap initialGateway "c1" "sA" 0
      [1, 2, 3, 4, 5, 6, 7, 8, 9, 10, 11] (by simp [initialGateway])
      (by decide)).2.2.2.2.1⟩

/-! Gateway invariant relating armed timers to the activeSessions map. -/

/-- A timer is registered when the activeSessions entry for its client points
back at its handle and its sessionId. -/
def timerRegistered (as : List (String × ActiveSession)) (t : IntervalTimer) :
    Prop :=
  ∃ sess, lookupKey t.clientId as = some sess ∧
    sess.feedbackTimer = t.handle ∧ sess.sessionId = t.sessionId

/-- Gateway invariant: armed timer handles are below the fresh counter and
every armed timer is the registered one for its client. -/
def GInv (st : GatewayState) : Prop :=
  (∀ t ∈ st.timers, t.handle < st.nextTimer) ∧
  (∀ t ∈ st.timers, timerRegistered st.activeSessions t)

theorem cleanup_lookup_self (c : String) (st : GatewayState) :
    lookupKey c (cleanupClientSession c st).activeSessions = none := by
  unfold cleanupClientSession
  cases hl : lookupKey c st.activeSessions with
  | none => simpa using hl
  | some sess => simp [lookupKey_eraseKey_self]

theorem mem_clearInterval (h : Nat) (l : List IntervalTimer) (t : IntervalTimer)
    (ht : t ∈ clearInterval h l) : t ∈ l ∧ t.handle ≠ h := by
  have hm := List.mem_filter.mp ht
  refine ⟨hm.1, ?_⟩
  have hb := hm.2
  simpa using hb

theorem mem_setTimerCount (h c0 : Nat) (l : List IntervalTimer)
    (t' : IntervalTimer) (ht : t' ∈ setTimerCount h c0 l) :
    ∃ t ∈ l, t'.handle = t.handle ∧ t'.clientId = t.clientId ∧
      t'.sessionId = t.sessionId := by
  obtain ⟨t, htl, hmap⟩ := List.mem_map.mp ht
  refine ⟨t, htl, ?_⟩
  by_cases hh : t.handle = h
  · rw [if_pos hh] at hmap
    subst hmap
    exact ⟨rfl, rfl, rfl⟩
  · rw [if_neg hh] at hmap
    subst hmap
    exact ⟨rfl, rfl, rfl⟩

theorem GInv_cleanup (c : String) (st : GatewayState) (hinv : GInv st) :
    GInv (cleanupClientSession c st) := by
  obtain ⟨hfr, hreg⟩ := hinv
  unfold cleanupClientSession
  cases hl : lookupKey c st.activeSessions with
  | none => exact ⟨hfr, hreg⟩
  | some sess =>
    constructor
    · intro t ht
      simp only at ht
      exact hfr t (mem_clearInterval _ _ t ht).1
    · intro t ht
      simp only at ht ⊢
      obtain ⟨htl, hne⟩ := mem_clearInterval _ _ t ht
      obtain ⟨s_t, hs1, hs2, hs3⟩ := hreg t htl
      by_cases hc : t.clientId = c
      · rw [hc, hl] at hs1
        have hst : sess = s_t := by injection hs1
        subst hst
        exact absurd hs2.symm hne
      · refine ⟨s_t, ?_, hs2, hs3⟩
        rw [lookupKey_eraseKey_ne t.clientId c _ hc]
        exact hs1

theorem GInv_start (c s : String) (now : Nat) (st : GatewayState)
    (hinv : GInv st) : GInv (handleStartInterviewSession c s now st) := by
  obtain ⟨hfr, hreg⟩ := GInv_cleanup c st hinv
  have hnone := cleanup_lookup_self c st
  constructor
  · intro t ht
    simp only [handleStartInterviewSession] at ht ⊢
    rcases List.mem_cons.mp ht with rfl | htl
    · simp
    · have := hfr t htl
      omega
  · intro t ht
    simp only [handleStartInterviewSession] at ht ⊢
    rcases List.mem_cons.mp ht with rfl | htl
    · exact ⟨{ sessionId := s, clientId := c,
               feedbackTimer := (cleanupClientSession c st).nextTimer,
               startTime := now },
        lookupKey_setKey_self c _ _, rfl, rfl⟩
    · obtain ⟨s_t, hs1, hs2, hs3⟩ := hreg t htl
      have hc : ¬ t.clientId = c := by
        intro hc
        rw [hc, hnone] at hs1
        exact absurd hs1 (by simp)
      refine ⟨s_t, ?_, hs2, hs3⟩
      rw [lookupKey_setKey_ne t.clientId c _ _ hc]
      exact hs1

theorem GInv_tick (h now : Nat) (st : GatewayState) (hinv : GInv st) :
    GInv (tick h now st) := by
  unfold tick
  cases hf : findTimer h st.timers with
  | none => exact hinv
  | some t =>
    simp only
    have hst1 : GInv
        { st with
            timers := setTimerCount h (t.feedbackCount + 1) st.timers
            emitted := st.emitted ++
              [{ clientId := t.clientId, sessionId := t.sessionId,
                 event := generateMockFeedback (t.feedbackCount + 1) now }] } := by
      obtain ⟨hfr, hreg⟩ := hinv
      constructor
      · intro t' ht'
        simp only at ht' ⊢
        obtain ⟨t0, ht0, he1, _, _⟩ := mem_setTimerCount _ _ _ t' ht'
        rw [he1]
        exact hfr t0 ht0
      · intro t' ht'
        simp only at ht' ⊢
        obtain ⟨t0, ht0, he1, he2, he3⟩ := mem_setTimerCount _ _ _ t' ht'
        obtain ⟨s0, hs1, hs2, hs3⟩ := hreg t0 ht0
        exact ⟨s0, by rw [he2]; exact hs1, by rw [he1]; exact hs2,
          by rw [he3]; exact hs3⟩
    by_cases hcap : 10 ≤ t.feedbackCount + 1
    · rw [if_pos hcap]
      exact GInv_cleanup _ _ hst1
    · rw [if_neg hcap]
      exact hst1

theorem GInv_applyOp (op : GatewayOp) (st : GatewayState) (hinv : GInv st) :
    GInv (applyOp op st) := by
  cases op with
  | start c s now => exact GInv_start c s now st hinv
  | disconnect c => exact GInv_cleanup c st hinv
  | timerFire h now => exact GInv_tick h now st hinv

theorem GInv_runOps (ops : List GatewayOp) :
    ∀ st, GInv st → GInv (runOps ops st) := by
  induction ops with
  | nil => exact fun st h => h
  | cons op rest ih => exact fun st h => ih _ (GInv_applyOp op st h)

/-- Claim C8, counterexample: in a state whose timer is armed but whose
registration for the connection is gone, the tick does not no-op — it still
transmits a feedback event, because the tick body never checks that its
session is the one registered for its connectionId. -/
theorem c8_tick_registration_counterexample :
    findTimer 0
      ({ activeSessions := []
         timers := [{ handle := 0, clientId := "c1", sessionId := "s1",
                      feedbackCount := 0 }]
         nextTimer := 1
         emitted := [] } : GatewayState).timers =
      some { handle := 0, clientId := "c1", sessionId := "s1",
             feedbackCount := 0 } ∧
    lookupKey "c1"
      ({ activeSessions := []
         timers := [{ handle := 0, clientId := "c1", sessionId := "s1",
                      feedbackCount := 0 }]
         nextTimer := 1
         emitted := [] } : GatewayState).activeSessions = none ∧
    (tick 0 5
      { activeSessions := []
        timers := [{ handle := 0, clientId := "c1", sessionId := "s1",
                     feedbackCount := 0 }]
        nextTimer := 1
        emitted := [] }).emitted = [tickEvent "c1" "s1" 1 5] := by
  refine ⟨rfl, rfl, rfl⟩

/-- Claim C8 as amended: the tick body performs no registration check, but in
every state reachable from the initial gateway state via the gateway's
handlers and timer firings, an armed timer is always exactly the one
registered for its connectionId (matching handle and sessionId) — so no tick
ever fires with a stale registration — and a tick whose timer has been
disarmed by cleanup does nothing. -/
theorem c8_live_timer_registered (ops : List GatewayOp) :
    (∀ t ∈ (runOps ops initialGateway).timers,
      ∃ sess, lookupKey t.clientId
          (runOps ops initialGateway).activeSessions = some sess ∧
        sess.feedbackTimer = t.handle ∧ sess.sessionId = t.sessionId) ∧
    (∀ h now, findTimer h (runOps ops initialGateway).timers = none →
      tick h now (runOps ops initialGateway) = runOps ops initialGateway) := by
  have hinv := GInv_runOps ops initialGateway
    ⟨by simp [initialGateway], by simp [initialGateway]⟩
  exact ⟨fun t ht => hinv.2 t ht, fun h now hn => tick_of_none h now _ hn⟩

/-- Claim C8 amended, witness: after one start op, the armed timer is the
registered one, and firing an unknown handle changes nothing. -/
theorem c8_live_timer_registered_witness :
    (∃ sess, lookupKey "c1"
        (runOps [GatewayOp.start "c1" "sA" 0] initialGateway).activeSessions =
        some sess ∧
      sess.feedbackTimer = 0 ∧ sess.sessionId = "sA") ∧
    tick 5 7 (runOps [GatewayOp.start "c1" "sA" 0] initialGateway) =
      runOps [GatewayOp.start "c1" "sA" 0] initialGateway :=
  ⟨(c8_live_timer_registered [GatewayOp.start "c1" "sA" 0]).1
      { handle := 0, clientId := "c1", sessionId := "sA", feedbackCount := 0 }
      (by decide),
   (c8_live_timer_registered [GatewayOp.start "c1" "sA" 0]).2 5 7 (by decide)⟩

end Trainer
